import Mathlib

/-!
Shallow embedding of `src/easyuse_nacos/easyuse_nacos.py`.

The module implements a descriptor-based accessor for a remote Nacos
configuration service: `NacosConfigProperty` (a data descriptor with a
read-through cache and a push-update callback), a process-wide client pool
keyed by `cache_key`, `NacosConfig.__init_subclass__` wiring, and a
metaclass write-guard.  External collaborators (the `nacos` client library,
`pydantic` dynamic models, `json.loads`) are modelled per the contracts the
spec assigns to them: client handles are opaque ids handed out by the pool,
pydantic dynamic models are validation bindings with a baked-in default,
and `json.loads` is an explicit function parameter.
-/

namespace EasyuseNacos

/-- Python values that flow through the accessor: `None`, strings, ints and
dict-shaped objects (used for parsed JSON and validated models). -/
inductive PyVal where
  | none
  | str (s : String)
  | int (n : Int)
  | obj (fields : List (String × PyVal))

/-- Python truthiness for the values above (`if val:` in the source):
`None` is falsy, an empty string is falsy, `0` is falsy, an empty dict is
falsy. -/
def pyTruthy : PyVal → Bool
  | PyVal.none => false
  | PyVal.str s => !s.isEmpty
  | PyVal.int n => n != 0
  | PyVal.obj l => !l.isEmpty

/-- A declared `default_value`: a plain value or a zero-argument callable
(the source distinguishes them with `callable(self.default_value)`). -/
inductive PyDefault where
  | lit (v : PyVal)
  | fn (f : Unit → PyVal)

/-- `get_default_value` from the source: call the default if it is
callable, otherwise return it as-is. -/
def call_default : PyDefault → PyVal
  | PyDefault.lit v => v
  | PyDefault.fn f => f ()

/-- Python truthiness of a default object: callables are always truthy,
plain values use value truthiness.  This is `if attr.default_value:` in
`__init_subclass__`. -/
def default_truthy : PyDefault → Bool
  | PyDefault.lit v => pyTruthy v
  | PyDefault.fn _ => true

/-- Base (scalar) declared shapes for validation. -/
inductive PyBase where
  | int
  | str

/-- Declared shapes: scalars, or a pydantic `BaseModel` subclass with the
given (flat) fields. -/
inductive PyType where
  | int
  | str
  | model (fields : List (String × PyBase))

/-- `issubclass(annotation, BaseModel)` in the source. -/
def isModelTy : PyType → Bool
  | PyType.model _ => true
  | _ => false

/-- Accumulating decimal parser over the characters of a string. -/
def parseNatAux : List Char → Nat → Option Nat
  | [], acc => some acc
  | c :: rest, acc =>
    if c.isDigit then parseNatAux rest (10 * acc + (c.toNat - 48)) else Option.none

/-- Parse a non-empty all-digit character list as a natural number. -/
def parseNatChars : List Char → Option Nat
  | [] => Option.none
  | cs => parseNatAux cs 0

/-- Parse a decimal integer string, with an optional leading minus sign. -/
def str_to_int (s : String) : Option Int :=
  match s.toList with
  | '-' :: rest => (parseNatChars rest).map (fun n => -(n : Int))
  | cs => (parseNatChars cs).map (fun n => (n : Int))

/-- Validate / coerce a raw value against a scalar shape (external
pydantic capability, per the spec's external-interface contract: coerce a
raw value into the declared shape or fail). -/
def validateBase : PyBase → PyVal → Except String PyVal
  | PyBase.int, PyVal.int n => Except.ok (PyVal.int n)
  | PyBase.int, PyVal.str s =>
    match str_to_int s with
    | some n => Except.ok (PyVal.int n)
    | Option.none => Except.error "ValidationError: value is not a valid integer"
  | PyBase.int, _ => Except.error "ValidationError: value is not a valid integer"
  | PyBase.str, PyVal.str s => Except.ok (PyVal.str s)
  | PyBase.str, PyVal.int n => Except.ok (PyVal.str (toString n))
  | PyBase.str, _ => Except.error "ValidationError: str type expected"

/-- Look up a field of a dict-shaped value. -/
def objField : List (String × PyVal) → String → Option PyVal
  | [], _ => Option.none
  | (k', v) :: rest, k => if k = k' then some v else objField rest k

/-- Validate the fields of a model shape against a dict-shaped value. -/
def validateFields : List (String × PyBase) → List (String × PyVal) →
    Except String (List (String × PyVal))
  | [], _ => Except.ok []
  | (f, t) :: rest, kvs =>
    match objField kvs f with
    | Option.none => Except.error "ValidationError: field required"
    | some v =>
      match validateBase t v with
      | Except.error e => Except.error e
      | Except.ok v' =>
        match validateFields rest kvs with
        | Except.error e => Except.error e
        | Except.ok tail => Except.ok ((f, v') :: tail)

/-- Validate / coerce a raw value against a declared shape. -/
def validate : PyType → PyVal → Except String PyVal
  | PyType.int, v => validateBase PyBase.int v
  | PyType.str, v => validateBase PyBase.str v
  | PyType.model fs, PyVal.obj kvs =>
    match validateFields fs kvs with
    | Except.error e => Except.error e
    | Except.ok kvs' => Except.ok (PyVal.obj kvs')
  | PyType.model _, _ => Except.error "ValidationError: value is not a valid dict"

/-- The default baked into a dynamic model field: pydantic's required
marker `...`, a plain default, or a `default_factory`. -/
inductive DMDefault where
  | required
  | val (v : PyVal)
  | factory (f : Unit → PyVal)

/-- A pydantic dynamic model created by `create_model` in
`__init_subclass__`: one field with the declared shape and a baked-in
default specification. -/
structure DynModel where
  ty : PyType
  dflt : DMDefault

/-- The `create_model` call in `__init_subclass__`: if the declared
default is truthy, bake it in (as a `default_factory` when callable,
else as a plain default); otherwise the field is required (`...`). -/
def mk_dynamic_model (ty : PyType) (d : PyDefault) : DynModel :=
  match d with
  | PyDefault.fn f => ⟨ty, DMDefault.factory f⟩
  | PyDefault.lit v => if pyTruthy v then ⟨ty, DMDefault.val v⟩ else ⟨ty, DMDefault.required⟩

/-- `getattr(self.dynamic_model(), self.attr_name)`: constructing the
dynamic model with no arguments yields the baked-in default, or raises a
validation error if the field is required. -/
def dm_construct_default (m : DynModel) : Except String PyVal :=
  match m.dflt with
  | DMDefault.required => Except.error "ValidationError: field required"
  | DMDefault.val v => Except.ok v
  | DMDefault.factory f => Except.ok (f ())

/-- `str(x)` on an optional string argument (`None` prints as `"None"`),
as used by `cache_key`. -/
def pyStrOpt : Option String → String
  | Option.none => "None"
  | some s => s

/-- `cache_key` from the source: separator-less concatenation of the six
connection parameters. -/
def cache_key (server_address namespace_id : String)
    (username password ak sk : Option String) : String :=
  server_address ++ namespace_id ++ pyStrOpt username ++ pyStrOpt password ++
    pyStrOpt ak ++ pyStrOpt sk

/-- The process-wide `nacos_client_pool` dict together with a supply of
fresh client ids (`NacosClient(...)` object identities). -/
structure Pool where
  entries : String → Option Nat
  nextId : Nat

/-- The pool at process start: empty. -/
def emptyPool : Pool := ⟨fun _ => Option.none, 0⟩

/-- The shared check-then-construct-then-publish sequence
(`if hash_key in nacos_client_pool: ... else: client = NacosClient(...);
nacos_client_pool[hash_key] = client`), appearing in both
`__init_subclass__` and `_get_nacos_client`.  Returns the handle and the
possibly-extended pool. -/
def pool_resolve (p : Pool) (key : String) : Nat × Pool :=
  match p.entries key with
  | some h => (h, p)
  | Option.none =>
    (p.nextId, ⟨fun k => if k = key then some p.nextId else p.entries k, p.nextId + 1⟩)

/-- Pool sanity: stored ids are below the fresh-id supply, and distinct
keys hold distinct client objects (each miss constructs a fresh
`NacosClient`). -/
def PoolWF (p : Pool) : Prop :=
  (∀ k h, p.entries k = some h → h < p.nextId) ∧
  (∀ k k' h, p.entries k = some h → p.entries k' = some h → k = k')

/-- State of one `NacosConfigProperty` descriptor (the fields set in
`__init__`, plus the fields mutated later by `__set_name__` and
`__init_subclass__`). -/
structure PropertyState where
  default_value : PyDefault := PyDefault.lit PyVal.none
  group : String := "DEFAULT_GROUP"
  attr_name : Option String := Option.none
  nacos_client : Option Nat := Option.none
  no_snap_shot : Option Bool := Option.none
  dynamic_model : Option DynModel := Option.none
  should_json_data : Bool := false
  read_from_cache : Bool := true
  cache_value : PyVal := PyVal.none

/-- A freshly constructed `NacosConfigProperty()` with all defaults. -/
def pDef : PropertyState := {}

/-- The ambient environment variables consulted by `_get_nacos_client`
(`os.environ.get` yields the value or `None`). -/
structure Env where
  nacos_server : Option String := Option.none
  nacos_namespace_id : Option String := Option.none
  nacos_username : Option String := Option.none
  nacos_password : Option String := Option.none
  nacos_ak : Option String := Option.none
  nacos_sk : Option String := Option.none

/-- An environment with none of the NACOS_* variables set. -/
def envEmpty : Env := {}

/-- Python truthiness of an `os.environ.get` result: unset or empty is
falsy. -/
def truthyStrOpt : Option String → Bool
  | Option.none => false
  | some s => !s.isEmpty

/-- The message of the exception raised by `_get_nacos_client` when no
client is wired and the ambient configuration is incomplete; it names
both remedies (environment variables, or class-level wiring). -/
def missing_client_msg : String :=
  "there is no nacos client, you can set environment variable NACOS_SERVER NACOS_NAMESPACE_ID NACOS_AK NACOS_SK or config it with class decorator @nacos_config"

/-- `_get_nacos_client`: use the wired client if truthy; otherwise, if
both mandatory environment variables are truthy, resolve through the
pool under the environment-derived `cache_key`; otherwise raise. -/
def get_nacos_client (p : PropertyState) (env : Env) (pool : Pool) :
    Except String (Nat × Pool) :=
  match p.nacos_client with
  | some c => Except.ok (c, pool)
  | Option.none =>
    if truthyStrOpt env.nacos_server && truthyStrOpt env.nacos_namespace_id then
      Except.ok (pool_resolve pool
        (cache_key (env.nacos_server.getD "") (env.nacos_namespace_id.getD "")
          env.nacos_username env.nacos_password env.nacos_ak env.nacos_sk))
    else
      Except.error missing_client_msg

/-- The tail of `__get__` after `val` is determined: if `val` is truthy,
derive the returned value (JSON-parse then validate when a dynamic model
is present, else return the raw value); if falsy, fall back to the
dynamic model's baked-in default or to `get_default_value`. -/
def derive_present (p1 : PropertyState) (jl : String → Except String PyVal)
    (val : PyVal) : Except String PyVal :=
  match p1.dynamic_model with
  | some dm =>
    match (if p1.should_json_data then
            match val with
            | PyVal.str s => jl s
            | _ => Except.error "TypeError: the JSON object must be str"
          else Except.ok val) with
    | Except.error e => Except.error e
    | Except.ok v => validate dm.ty v
  | Option.none => Except.ok val

/-- Result of one `__get__` call: the returned value or raised error, the
descriptor state after the call, the pool after the call, and whether
`get_config` was invoked. -/
structure GetOut where
  result : Except String PyVal
  prop : PropertyState
  pool : Pool
  fetchCalled : Bool

/-- Shared tail of `__get__` (everything after the try/except). -/
def finish_get (p1 : PropertyState) (pool1 : Pool) (fetched : Bool) (val : PyVal)
    (jl : String → Except String PyVal) : GetOut :=
  if pyTruthy val then
    ⟨derive_present p1 jl val, p1, pool1, fetched⟩
  else
    match p1.dynamic_model with
    | some dm => ⟨dm_construct_default dm, p1, pool1, fetched⟩
    | Option.none => ⟨Except.ok (call_default p1.default_value), p1, pool1, fetched⟩

/-- `__get__` from the source.  `serverFetch` is the outcome of
`client.get_config(...)` (the external Nacos call): a value, `None` when
the key is absent, or a raised error.  `jl` is `json.loads`.  The
try/except catches every exception from client resolution and from the
fetch, setting `val = None`; a successful fetch also populates
`cache_value`. -/
def prop_get (p : PropertyState) (env : Env) (pool : Pool)
    (serverFetch : Except String PyVal) (jl : String → Except String PyVal) : GetOut :=
  if p.read_from_cache && pyTruthy p.cache_value then
    finish_get p pool false p.cache_value jl
  else
    match get_nacos_client p env pool with
    | Except.error _ => finish_get p pool false PyVal.none jl
    | Except.ok (_, pool') =>
      match serverFetch with
      | Except.error _ => finish_get p pool' true PyVal.none jl
      | Except.ok v => finish_get { p with cache_value := v } pool' true v jl

/-- The update record delivered to a config watcher (`data['content']`). -/
structure WatchEvent where
  content : PyVal

/-- `update_cache_val`: overwrite the cached raw value with the pushed
content. -/
def update_cache_val (p : PropertyState) (data : WatchEvent) : PropertyState :=
  { p with cache_value := data.content }

/-- `register_update_callback`: when `read_from_cache` is set, resolve a
client and register `update_cache_val` as a watcher on it
(`add_config_watcher`).  There is no exception handling here: a failing
client resolution propagates.  Returns the pool and the client the
watcher was registered on (if any). -/
def register_update_callback (p : PropertyState) (env : Env) (pool : Pool) :
    Except String (Pool × Option Nat) :=
  if p.read_from_cache then
    match get_nacos_client p env pool with
    | Except.error e => Except.error e
    | Except.ok (c, pool') => Except.ok (pool', some c)
  else
    Except.ok (pool, Option.none)

/-- `__set_name__` from the source: record the attribute name, then
register the update callback.  Python calls `__set_name__` during class
creation, before `__init_subclass__` runs, so at this point
`_nacos_client` is still `None`.  Exceptions propagate out of class
construction. -/
def set_name (p : PropertyState) (name : String) (env : Env) (pool : Pool) :
    Except String (PropertyState × Pool × Option Nat) :=
  match register_update_callback { p with attr_name := some name } env pool with
  | Except.error e => Except.error e
  | Except.ok (pool', c) => Except.ok ({ p with attr_name := some name }, pool', c)

/-- Message raised by `NacosConfigProperty.__set__`. -/
def set_msg : String := "Cannot set NacosConfigItem values"

/-- Message raised by `NacosConfigMeta.__setattr__`. -/
def meta_msg : String := "Cannot set attribute with type NacosConfigProperty"

/-- `NacosConfigProperty.__set__`: unconditionally raises, touching no
state. -/
def prop_set (_p : PropertyState) (_value : PyVal) : Except String PropertyState :=
  Except.error set_msg

/-- An entry of a class namespace (`cls.__dict__`): a declared
`NacosConfigProperty` or any other attribute value. -/
inductive ClassAttr where
  | prop (p : PropertyState)
  | plain (v : PyVal)

/-- `key in cls.__dict__` lookup. -/
def dictLookup : List (String × ClassAttr) → String → Option ClassAttr
  | [], _ => Option.none
  | (k', a) :: rest, k => if k = k' then some a else dictLookup rest k

/-- `key in cls.__dict__ and isinstance(cls.__dict__[key],
NacosConfigProperty)`. -/
def isPropAt (d : List (String × ClassAttr)) (k : String) : Bool :=
  match dictLookup d k with
  | some (ClassAttr.prop _) => true
  | _ => false

/-- `NacosConfigMeta.__setattr__`: raise when the key names a declared
`NacosConfigProperty`; otherwise fall off the end without calling
`super().__setattr__`, so the assignment is silently dropped and the
class dict is unchanged. -/
def meta_setattr (d : List (String × ClassAttr)) (key : String) (_value : ClassAttr) :
    Except String (List (String × ClassAttr)) :=
  if isPropAt d key then Except.error meta_msg else Except.ok d

/-- Client resolution in `__init_subclass__`: a supplied `nacos_client`
is used as-is (not pooled); otherwise, with truthy `server_address` and
`namespace_id`, resolve through the pool under `cache_key`; otherwise no
wiring happens. -/
def init_subclass_resolve (pool : Pool) (nacos_client : Option Nat)
    (server_address namespace_id username password ak sk : Option String) :
    Option Nat × Pool :=
  match nacos_client with
  | some c => (some c, pool)
  | Option.none =>
    if truthyStrOpt server_address && truthyStrOpt namespace_id then
      let r := pool_resolve pool
        (cache_key (server_address.getD "") (namespace_id.getD "") username password ak sk)
      (some r.1, r.2)
    else
      (Option.none, pool)

/-- Annotation lookup (`key in cls.__annotations__`). -/
def lookupTy : List (String × PyType) → String → Option PyType
  | [], _ => Option.none
  | (k', t) :: rest, k => if k = k' then some t else lookupTy rest k

/-- The annotation-dependent part of the wiring loop body: when the key
is annotated, build the dynamic model from the declared shape and the
property's default, and mark JSON pre-parsing for `BaseModel` shapes. -/
def applyAnn (key : String) (ann : List (String × PyType)) (p : PropertyState) :
    PropertyState :=
  match lookupTy ann key with
  | some ty =>
    let p1 := { p with dynamic_model := some (mk_dynamic_model ty p.default_value) }
    if isModelTy ty then { p1 with should_json_data := true } else p1
  | Option.none => p

/-- One iteration of the wiring loop over `cls.__dict__.items()`: every
`NacosConfigProperty` gets `_nacos_client` set (the assignment is outside
the annotation check); the dynamic model is built only for annotated
keys. -/
def wire_attr (client : Nat) (ann : List (String × PyType)) :
    String × ClassAttr → String × ClassAttr
  | (k, ClassAttr.prop p) =>
    (k, ClassAttr.prop (applyAnn k ann { p with nacos_client := some client }))
  | (k, ClassAttr.plain v) => (k, ClassAttr.plain v)

/-- The wiring part of `__init_subclass__`: if the class has no
`__annotations__` attribute at all, return with no property wired;
otherwise run the loop over the class dict. -/
def init_subclass_wire (d : List (String × ClassAttr))
    (ann : Option (List (String × PyType))) (client : Nat) :
    List (String × ClassAttr) :=
  match ann with
  | Option.none => d
  | some a => d.map (wire_attr client a)

/-- State of one caller racing through the check-then-construct-then-publish
sequence on the pool (for a single fixed key): it has not started, it has
constructed a client not yet published, or it is done holding a handle. -/
inductive RCaller where
  | start
  | constructed (h : Nat)
  | done (h : Nat)
deriving DecidableEq

/-- System state for two callers racing on the same key: the pool slot for
that key, the fresh-id supply, how many times the client factory
(`NacosClient(...)`) ran, and each caller's position. -/
structure RaceState where
  pool : Option Nat
  nextId : Nat
  factoryCalls : Nat
  a : RCaller
  b : RCaller
deriving DecidableEq

/-- One atomic step of a caller.  The source's critical section spans two
separately-atomic parts: the membership check (which, on a miss, runs
straight into the blocking `NacosClient(...)` construction), and the later
dict publish; another thread can interleave between them. -/
def race_step_caller (c : RCaller) (pool : Option Nat) (nextId calls : Nat) :
    RCaller × Option Nat × Nat × Nat :=
  match c with
  | RCaller.start =>
    match pool with
    | some h => (RCaller.done h, some h, nextId, calls)
    | Option.none => (RCaller.constructed nextId, Option.none, nextId + 1, calls + 1)
  | RCaller.constructed h => (RCaller.done h, some h, nextId, calls)
  | RCaller.done h => (RCaller.done h, pool, nextId, calls)

/-- Run caller A (`true`) or caller B (`false`) for one step. -/
def race_step (s : RaceState) (which : Bool) : RaceState :=
  if which then
    match race_step_caller s.a s.pool s.nextId s.factoryCalls with
    | (c, pool, n, k) => { s with a := c, pool := pool, nextId := n, factoryCalls := k }
  else
    match race_step_caller s.b s.pool s.nextId s.factoryCalls with
    | (c, pool, n, k) => { s with b := c, pool := pool, nextId := n, factoryCalls := k }

/-- Run a whole interleaving schedule. -/
def race_run (sched : List Bool) (s : RaceState) : RaceState :=
  sched.foldl race_step s

/-- Both callers about to resolve a key not yet in the pool. -/
def race_init (n : Nat) : RaceState :=
  ⟨Option.none, n, 0, RCaller.start, RCaller.start⟩

/-- A `json.loads` stand-in for concrete scenarios in which JSON parsing
is never reached. -/
def jlNone : String → Except String PyVal := fun _ => Except.error "json unused"

/-! ## Helper lemmas -/

theorem finish_get_absent (p1 : PropertyState) (pool1 : Pool) (b : Bool)
    (jl : String → Except String PyVal) :
    (finish_get p1 pool1 b PyVal.none jl).result =
      match p1.dynamic_model with
      | some dm => dm_construct_default dm
      | Option.none => Except.ok (call_default p1.default_value) := by
  cases h : p1.dynamic_model <;> simp [finish_get, pyTruthy, h]

theorem prop_get_absent (p : PropertyState) (env : Env) (pool : Pool)
    (f : Except String PyVal) (jl : String → Except String PyVal)
    (hcache : (p.read_from_cache && pyTruthy p.cache_value) = false)
    (habs : (∃ e, get_nacos_client p env pool = Except.error e) ∨
      f = Except.ok PyVal.none ∨ (∃ m, f = Except.error m)) :
    (prop_get p env pool f jl).result =
      match p.dynamic_model with
      | some dm => dm_construct_default dm
      | Option.none => Except.ok (call_default p.default_value) := by
  rw [prop_get, hcache]
  simp only [Bool.false_eq_true, if_false]
  rcases habs with ⟨e, hg⟩ | hf | ⟨m, hf⟩
  · rw [hg]; exact finish_get_absent p pool false jl
  · cases hg : get_nacos_client p env pool with
    | error e => exact finish_get_absent p pool false jl
    | ok cp =>
      subst hf
      have : ({ p with cache_value := PyVal.none } : PropertyState).dynamic_model
          = p.dynamic_model := rfl
      rw [show (Except.ok PyVal.none : Except String PyVal) = Except.ok PyVal.none from rfl]
      exact finish_get_absent { p with cache_value := PyVal.none } cp.2 true jl
  · cases hg : get_nacos_client p env pool with
    | error e => exact finish_get_absent p pool false jl
    | ok cp =>
      subst hf
      exact finish_get_absent p cp.2 true jl

theorem mk_construct_of_truthy (ty : PyType) (d : PyDefault)
    (ht : default_truthy d = true) :
    dm_construct_default (mk_dynamic_model ty d) = Except.ok (call_default d) := by
  cases d with
  | fn f => rfl
  | lit v =>
    simp only [default_truthy] at ht
    simp [mk_dynamic_model, ht, dm_construct_default, call_default]

/-! ## C6 -/

/-- C6: for a ConfigProperty with no validation binding and no usable
cached value, when the remote value is absent or the fetch (or client
resolution) raises, `read()` returns the declared default — invoking it
when it is a zero-argument factory — and never propagates the failure. -/
theorem c6_default_on_absent_or_error (p : PropertyState) (env : Env) (pool : Pool)
    (f : Except String PyVal) (jl : String → Except String PyVal) (m : String)
    (hdm : p.dynamic_model = Option.none)
    (hcache : (p.read_from_cache && pyTruthy p.cache_value) = false)
    (hf : f = Except.ok PyVal.none ∨ f = Except.error m) :
    (prop_get p env pool f jl).result = Except.ok (call_default p.default_value) := by
  rw [prop_get_absent p env pool f jl hcache
    (Or.inr (hf.imp id (fun h => ⟨m, h⟩))), hdm]

/-- Witness for C6: a property with literal default `7`, an erroring
fetch; the read returns `7`. -/
theorem c6_witness :
    (prop_get { pDef with default_value := PyDefault.lit (PyVal.int 7) }
        envEmpty emptyPool (Except.error "connection refused") jlNone).result
      = Except.ok (PyVal.int 7) :=
  c6_default_on_absent_or_error _ envEmpty emptyPool _ jlNone "connection refused"
    rfl rfl (Or.inr rfl)

/-! ## C1 -/

/-- C1 (amended): with no wired client and incomplete ambient environment
configuration, the missing-endpoint error (whose message names both
remedies) is raised internally by `_get_nacos_client`, but `__get__`
catches every exception, so the caller of `read()` receives the declared
default instead of the error. -/
theorem c1_read_swallows_missing_endpoint (p : PropertyState) (env : Env) (pool : Pool)
    (f : Except String PyVal) (jl : String → Except String PyVal)
    (hcl : p.nacos_client = Option.none)
    (henv : truthyStrOpt env.nacos_server = false ∨
      truthyStrOpt env.nacos_namespace_id = false)
    (hcache : (p.read_from_cache && pyTruthy p.cache_value) = false)
    (hdm : p.dynamic_model = Option.none) :
    get_nacos_client p env pool = Except.error missing_client_msg ∧
    (prop_get p env pool f jl).result = Except.ok (call_default p.default_value) := by
  have hg : get_nacos_client p env pool = Except.error missing_client_msg := by
    rw [get_nacos_client, hcl]
    rcases henv with h | h <;> simp [h]
  refine ⟨hg, ?_⟩
  rw [prop_get_absent p env pool f jl hcache (Or.inl ⟨missing_client_msg, hg⟩), hdm]

/-- C1 counterexample: a never-wired property in an empty environment;
its first `read()` does not fail — it returns the default, so the
missing-endpoint error is not surfaced to the caller of `read()`. -/
theorem c1_counterexample :
    (prop_get
        { pDef with
            read_from_cache := false
            default_value := PyDefault.lit (PyVal.int 7) }
        envEmpty emptyPool (Except.error "never reached") jlNone).result
      = Except.ok (PyVal.int 7) := rfl

/-- Witness for C1's amended theorem at a concrete input. -/
theorem c1_witness :
    get_nacos_client
        { pDef with
            read_from_cache := false
            default_value := PyDefault.lit (PyVal.int 9) } envEmpty emptyPool
      = Except.error missing_client_msg ∧
    (prop_get
        { pDef with
            read_from_cache := false
            default_value := PyDefault.lit (PyVal.int 9) }
        envEmpty emptyPool (Except.ok (PyVal.str "")) jlNone).result
      = Except.ok (PyVal.int 9) :=
  c1_read_swallows_missing_endpoint _ envEmpty emptyPool _ jlNone
    rfl (Or.inl rfl) rfl rfl

/-! ## C4 -/

/-- C4 (amended): with a validation binding built by the wiring from a
truthy declared default (non-zero, non-empty, or a factory), an absent or
failed fetch makes `read()` return the baked-in default.  (A falsy
declared default yields a required field instead — see the
counterexample.) -/
theorem c4_truthy_default_returned_on_absence (p : PropertyState) (ty : PyType)
    (d : PyDefault) (env : Env) (pool : Pool) (f : Except String PyVal)
    (jl : String → Except String PyVal) (m : String)
    (hdm : p.dynamic_model = some (mk_dynamic_model ty d))
    (ht : default_truthy d = true)
    (hcache : (p.read_from_cache && pyTruthy p.cache_value) = false)
    (hf : f = Except.ok PyVal.none ∨ f = Except.error m) :
    (prop_get p env pool f jl).result = Except.ok (call_default d) := by
  rw [prop_get_absent p env pool f jl hcache
    (Or.inr (hf.imp id (fun h => ⟨m, h⟩))), hdm]
  exact mk_construct_of_truthy ty d ht

/-- C4 counterexample: a programmer-supplied default of `0` on an
`int`-annotated property is falsy, so `create_model` bakes in a required
field; with the remote value absent, `read()` raises a validation error
instead of returning the validated default `0`. -/
theorem c4_counterexample :
    (prop_get
        (applyAnn "x" [("x", PyType.int)]
          { pDef with
              default_value := PyDefault.lit (PyVal.int 0)
              nacos_client := some 0 })
        envEmpty emptyPool (Except.ok PyVal.none) jlNone).result
      = Except.error "ValidationError: field required" := rfl

/-- Witness for C4's amended theorem at a concrete input: default `5`
(truthy) is returned on absence. -/
theorem c4_witness :
    (prop_get
        { pDef with
            nacos_client := some 0
            dynamic_model :=
              some (mk_dynamic_model PyType.int (PyDefault.lit (PyVal.int 5))) }
        envEmpty emptyPool (Except.ok PyVal.none) jlNone).result
      = Except.ok (call_default (PyDefault.lit (PyVal.int 5))) :=
  c4_truthy_default_returned_on_absence _ PyType.int _ envEmpty emptyPool _ jlNone
    "unused" rfl (by decide) rfl (Or.inl rfl)

/-! ## C7 -/

/-- C7: for a cache-enabled property, once the subscription callback has
delivered content `"42"`, a subsequent `read()` does not call
`get_config` and returns the value derived from `"42"`: the raw string
when no validation binding is present, its validated coercion (e.g.
`42 : int` under an `int` binding) when one is. -/
theorem c7_cache_serves_update (p : PropertyState) (env : Env) (pool : Pool)
    (f : Except String PyVal) (jl : String → Except String PyVal)
    (hc : p.read_from_cache = true) :
    (prop_get (update_cache_val p ⟨PyVal.str "42"⟩) env pool f jl).fetchCalled = false ∧
    (prop_get (update_cache_val p ⟨PyVal.str "42"⟩) env pool f jl).result
      = derive_present (update_cache_val p ⟨PyVal.str "42"⟩) jl (PyVal.str "42") ∧
    (p.dynamic_model = Option.none →
      (prop_get (update_cache_val p ⟨PyVal.str "42"⟩) env pool f jl).result
        = Except.ok (PyVal.str "42")) ∧
    (∀ dd, p.dynamic_model = some ⟨PyType.int, dd⟩ → p.should_json_data = false →
      (prop_get (update_cache_val p ⟨PyVal.str "42"⟩) env pool f jl).result
        = Except.ok (PyVal.int 42)) := by
  have h42 : pyTruthy (PyVal.str "42") = true := by decide
  have hcond : ((update_cache_val p ⟨PyVal.str "42"⟩).read_from_cache &&
      pyTruthy (update_cache_val p ⟨PyVal.str "42"⟩).cache_value) = true := by
    show (p.read_from_cache && pyTruthy (PyVal.str "42")) = true
    rw [hc, h42]; rfl
  have hget : prop_get (update_cache_val p ⟨PyVal.str "42"⟩) env pool f jl =
      finish_get (update_cache_val p ⟨PyVal.str "42"⟩) pool false (PyVal.str "42") jl := by
    rw [prop_get, hcond]; rfl
  have hfin : finish_get (update_cache_val p ⟨PyVal.str "42"⟩) pool false
      (PyVal.str "42") jl =
      ⟨derive_present (update_cache_val p ⟨PyVal.str "42"⟩) jl (PyVal.str "42"),
        update_cache_val p ⟨PyVal.str "42"⟩, pool, false⟩ := by
    rw [finish_get, h42]; rfl
  refine ⟨by rw [hget, hfin], by rw [hget, hfin], ?_, ?_⟩
  · intro hdm
    rw [hget, hfin]
    show derive_present (update_cache_val p ⟨PyVal.str "42"⟩) jl (PyVal.str "42")
      = Except.ok (PyVal.str "42")
    have : (update_cache_val p ⟨PyVal.str "42"⟩).dynamic_model = Option.none := hdm
    rw [derive_present, this]
  · intro dd hdm hjs
    rw [hget, hfin]
    show derive_present (update_cache_val p ⟨PyVal.str "42"⟩) jl (PyVal.str "42")
      = Except.ok (PyVal.int 42)
    have h1 : (update_cache_val p ⟨PyVal.str "42"⟩).dynamic_model
      = some ⟨PyType.int, dd⟩ := hdm
    have h2 : (update_cache_val p ⟨PyVal.str "42"⟩).should_json_data = false := hjs
    rw [derive_present, h1, h2]
    simp only [Bool.false_eq_true, if_false]
    rfl

/-- Witness for C7 at a concrete input: a default cache-enabled property
with no binding. -/
theorem c7_witness :
    (prop_get (update_cache_val pDef ⟨PyVal.str "42"⟩) envEmpty emptyPool
        (Except.error "push already delivered") jlNone).fetchCalled = false ∧
    (prop_get (update_cache_val pDef ⟨PyVal.str "42"⟩) envEmpty emptyPool
        (Except.error "push already delivered") jlNone).result
      = Except.ok (PyVal.str "42") := by
  have h := c7_cache_serves_update pDef envEmpty emptyPool
    (Except.error "push already delivered") jlNone rfl
  exact ⟨h.1, h.2.2.1 rfl⟩

/-! ## C2 -/

/-- C2 (amended): registering the push-update subscription has no
exception handling — when client resolution fails during registration
(as it always does for an unwired property with incomplete ambient
configuration, since `__set_name__` runs before `__init_subclass__`
wiring), the error propagates out of the attribute declaration; there is
no fallback to un-cached per-read fetches. -/
theorem c2_registration_failure_propagates (p : PropertyState) (name : String)
    (env : Env) (pool : Pool) (e : String)
    (hc : p.read_from_cache = true)
    (hf : get_nacos_client { p with attr_name := some name } env pool
      = Except.error e) :
    set_name p name env pool = Except.error e := by
  rw [set_name]
  generalize hgen : ({ p with attr_name := some name } : PropertyState) = q at hf ⊢
  have hc' : q.read_from_cache = true := by rw [← hgen]; exact hc
  rw [register_update_callback, hc', if_pos rfl, hf]

/-- C2 counterexample: declaring a cache-enabled property with no wired
client in an empty environment makes `__set_name__` raise — the
registration failure propagates out of the declaration instead of being
tolerated. -/
theorem c2_counterexample :
    set_name pDef "k" envEmpty emptyPool = Except.error missing_client_msg := rfl

/-- Witness for C2's amended theorem at a concrete input. -/
theorem c2_witness :
    set_name pDef "w" envEmpty emptyPool = Except.error missing_client_msg :=
  c2_registration_failure_propagates pDef "w" envEmpty emptyPool
    missing_client_msg rfl rfl

/-! ## C8 -/

/-- C8: assigning to a declared ConfigProperty attribute always raises an
immutability error — on an instance (`__set__` raises unconditionally, so
for wired and unwired properties alike, and never returns a new state)
and on the owning class object (the metaclass `__setattr__` raises when
the key names a declared property). -/
theorem c8_set_always_raises (p : PropertyState) (v : PyVal)
    (d : List (String × ClassAttr)) (k : String) (w : ClassAttr) (q : PropertyState)
    (hq : dictLookup d k = some (ClassAttr.prop q)) :
    prop_set p v = Except.error set_msg ∧
    (∀ p', prop_set p v ≠ Except.ok p') ∧
    meta_setattr d k w = Except.error meta_msg := by
  refine ⟨rfl, fun p' h => Except.noConfusion h, ?_⟩
  have hp : isPropAt d k = true := by rw [isPropAt, hq]
  rw [meta_setattr, hp, if_pos rfl]

/-- Witness for C8 at a concrete input: a wired and an unwired view of the
same declared property both reject assignment. -/
theorem c8_witness :
    prop_set pDef (PyVal.int 1) = Except.error set_msg ∧
    (∀ p', prop_set pDef (PyVal.int 1) ≠ Except.ok p') ∧
    meta_setattr [("x", ClassAttr.prop pDef)] "x" (ClassAttr.plain (PyVal.int 2))
      = Except.error meta_msg :=
  c8_set_always_raises pDef (PyVal.int 1) [("x", ClassAttr.prop pDef)] "x"
    (ClassAttr.plain (PyVal.int 2)) pDef rfl

/-! ## C10 -/

/-- C10: a class-level attribute assignment on a ConfigClass subclass
never stores the value: when the key names a declared ConfigProperty the
metaclass raises, and for every other key the assignment silently does
nothing — no error, and the class dict is returned unchanged (the
metaclass `__setattr__` never calls `super().__setattr__`). -/
theorem c10_class_setattr_never_stores (d : List (String × ClassAttr)) (k : String)
    (v : ClassAttr) :
    ((∃ q, dictLookup d k = some (ClassAttr.prop q)) →
      meta_setattr d k v = Except.error meta_msg) ∧
    ((¬ ∃ q, dictLookup d k = some (ClassAttr.prop q)) →
      meta_setattr d k v = Except.ok d) := by
  constructor
  · rintro ⟨q, hq⟩
    have hp : isPropAt d k = true := by rw [isPropAt, hq]
    rw [meta_setattr, hp, if_pos rfl]
  · intro hn
    have hp : isPropAt d k = false := by
      rw [isPropAt]
      cases hd : dictLookup d k with
      | none => rfl
      | some a =>
        cases a with
        | prop q => exact absurd ⟨q, hd⟩ hn
        | plain w => rfl
    rw [meta_setattr, hp]
    rfl

/-- Witness for C10 at concrete inputs: assigning over a declared
property raises; assigning any other name is silently dropped, leaving
the class dict unchanged. -/
theorem c10_witness :
    meta_setattr [("x", ClassAttr.prop pDef), ("y", ClassAttr.plain (PyVal.int 5))]
        "x" (ClassAttr.plain (PyVal.int 1)) = Except.error meta_msg ∧
    meta_setattr [("x", ClassAttr.prop pDef), ("y", ClassAttr.plain (PyVal.int 5))]
        "y" (ClassAttr.plain (PyVal.int 1))
      = Except.ok [("x", ClassAttr.prop pDef), ("y", ClassAttr.plain (PyVal.int 5))] := by
  constructor
  · exact (c10_class_setattr_never_stores _ "x" _).1 ⟨pDef, rfl⟩
  · refine (c10_class_setattr_never_stores _ "y" _).2 ?_
    rintro ⟨q, hq⟩
    simp [dictLookup] at hq

/-! ## C5 -/

theorem applyAnn_nacos_client (k : String) (ann : List (String × PyType))
    (q : PropertyState) : (applyAnn k ann q).nacos_client = q.nacos_client := by
  rw [applyAnn]
  cases lookupTy ann k with
  | none => rfl
  | some ty =>
    cases hty : isModelTy ty <;> simp [hty]

/-- C5 (amended): under explicit wiring, whenever the class exposes an
annotations mapping, every declared ConfigProperty attribute — annotated
or not — receives the endpoint reference (`_nacos_client` is assigned
outside the annotation check); a type annotation controls only the
validation binding.  Only when the class lacks `__annotations__` entirely
is the whole wiring loop skipped. -/
theorem c5_all_props_wired :
    (∀ (d : List (String × ClassAttr)) (a : List (String × PyType)) (client : Nat)
      (k : String) (q : PropertyState),
      dictLookup (init_subclass_wire d (some a) client) k
          = some (ClassAttr.prop q) →
      q.nacos_client = some client) ∧
    (∀ (d : List (String × ClassAttr)) (client : Nat),
      init_subclass_wire d Option.none client = d) := by
  constructor
  · intro d a client k q h
    induction d with
    | nil => simp [init_subclass_wire, dictLookup] at h
    | cons hd tl ih =>
      obtain ⟨k', a'⟩ := hd
      cases a' with
      | prop p0 =>
        rw [init_subclass_wire, List.map_cons] at h
        by_cases hk : k = k'
        · rw [wire_attr] at h
          rw [dictLookup, if_pos hk] at h
          have hq : ClassAttr.prop (applyAnn k' a { p0 with nacos_client := some client })
              = ClassAttr.prop q := Option.some.inj h
          have hq' : applyAnn k' a { p0 with nacos_client := some client } = q :=
            ClassAttr.prop.inj hq
          rw [← hq', applyAnn_nacos_client]
        · rw [wire_attr] at h
          rw [dictLookup, if_neg hk] at h
          exact ih h
      | plain v =>
        rw [init_subclass_wire, List.map_cons] at h
        by_cases hk : k = k'
        · rw [wire_attr] at h
          rw [dictLookup, if_pos hk] at h
          exact absurd (Option.some.inj h) (by intro hc; cases hc)
        · rw [wire_attr] at h
          rw [dictLookup, if_neg hk] at h
          exact ih h
  · intro d client
    rfl

/-- C5 counterexample: a class dict with an unannotated declared property
`"x"` (the annotations mapping only mentions `"y"`); after wiring, `"x"`
has received the endpoint reference, contradicting the claim that
unannotated properties never receive one. -/
theorem c5_counterexample :
    dictLookup
        (init_subclass_wire
          [("x", ClassAttr.prop pDef), ("y", ClassAttr.plain (PyVal.int 5))]
          (some [("y", PyType.int)]) 3) "x"
      = some (ClassAttr.prop { pDef with nacos_client := some 3 }) := rfl

/-- Witness for C5's amended theorem at a concrete input. -/
theorem c5_witness :
    ({ pDef with nacos_client := some 3 } : PropertyState).nacos_client = some 3 :=
  c5_all_props_wired.1 [("x", ClassAttr.prop pDef)] [("y", PyType.int)] 3 "x"
    { pDef with nacos_client := some 3 } rfl

/-! ## C3 -/

theorem resolve_twice_iff (p : Pool) (hWF : PoolWF p) (k1 k2 : String) :
    ((pool_resolve p k1).1 = (pool_resolve (pool_resolve p k1).2 k2).1) ↔ k1 = k2 := by
  obtain ⟨hlt, hinj⟩ := hWF
  cases e1 : p.entries k1 with
  | some h1 =>
    cases e2 : p.entries k2 with
    | some h2 =>
      simp only [pool_resolve, e1, e2]
      constructor
      · intro h
        exact hinj k1 k2 h1 e1 (by rw [h]; exact e2)
      · intro h
        subst h
        rw [e1] at e2
        exact Option.some.inj e2
    | none =>
      simp only [pool_resolve, e1, e2]
      constructor
      · intro h
        exact absurd (hlt k1 h1 e1) (by rw [h]; exact lt_irrefl p.nextId)
      · intro h
        subst h
        rw [e1] at e2
        exact Option.noConfusion e2
  | none =>
    by_cases hk : k2 = k1
    · subst hk
      simp [pool_resolve, e1]
    · simp only [pool_resolve, e1, if_neg hk]
      cases e2 : p.entries k2 with
      | some h2 =>
        simp only [e2]
        constructor
        · intro h
          exact absurd (hlt k2 h2 e2) (by rw [← h]; exact lt_irrefl p.nextId)
        · intro h
          exact absurd h.symm hk
      | none =>
        simp only [e2]
        constructor
        · intro h
          exact absurd h (Nat.ne_of_lt (Nat.lt_succ_self p.nextId))
        · intro h
          exact absurd h.symm hk

/-- C3 (amended): for two subclasses wired sequentially through
endpoint-selection parameters, the underlying connection handle is shared
exactly when the two `cache_key` strings coincide.  Structurally equal
tuples always share; but since `cache_key` concatenates its fields with
no separator, tuples differing in a field can still collide and share
(see the counterexample). -/
theorem c3_sharing_iff_cache_key_eq (pool : Pool) (hWF : PoolWF pool)
    (sa1 ns1 sa2 ns2 : String) (u1 pw1 ak1 sk1 u2 pw2 ak2 sk2 : Option String)
    (h1 : truthyStrOpt (some sa1) = true) (h2 : truthyStrOpt (some ns1) = true)
    (h3 : truthyStrOpt (some sa2) = true) (h4 : truthyStrOpt (some ns2) = true) :
    ((init_subclass_resolve pool Option.none (some sa1) (some ns1) u1 pw1 ak1 sk1).1
      = (init_subclass_resolve
          (init_subclass_resolve pool Option.none (some sa1) (some ns1) u1 pw1 ak1 sk1).2
          Option.none (some sa2) (some ns2) u2 pw2 ak2 sk2).1)
    ↔ cache_key sa1 ns1 u1 pw1 ak1 sk1 = cache_key sa2 ns2 u2 pw2 ak2 sk2 := by
  have e1 : init_subclass_resolve pool Option.none (some sa1) (some ns1) u1 pw1 ak1 sk1
      = (some (pool_resolve pool (cache_key sa1 ns1 u1 pw1 ak1 sk1)).1,
        (pool_resolve pool (cache_key sa1 ns1 u1 pw1 ak1 sk1)).2) := by
    simp [init_subclass_resolve, h1, h2]
  rw [e1]
  have e2 : init_subclass_resolve (pool_resolve pool (cache_key sa1 ns1 u1 pw1 ak1 sk1)).2
      Option.none (some sa2) (some ns2) u2 pw2 ak2 sk2
      = (some (pool_resolve (pool_resolve pool (cache_key sa1 ns1 u1 pw1 ak1 sk1)).2
          (cache_key sa2 ns2 u2 pw2 ak2 sk2)).1,
        (pool_resolve (pool_resolve pool (cache_key sa1 ns1 u1 pw1 ak1 sk1)).2
          (cache_key sa2 ns2 u2 pw2 ak2 sk2)).2) := by
    simp [init_subclass_resolve, h3, h4]
  dsimp only
  rw [e2]
  dsimp only
  rw [Option.some.injEq]
  exact resolve_twice_iff pool hWF _ _

/-- C3 counterexample: the tuples `("ab", "c", None, None, None, None)`
and `("a", "bc", None, None, None, None)` differ in two fields, yet the
two wirings share one handle, because the separator-less `cache_key`
concatenations coincide. -/
theorem c3_counterexample :
    ("ab", "c") ≠ (("a", "bc") : String × String) ∧
    (init_subclass_resolve emptyPool Option.none (some "ab") (some "c")
        Option.none Option.none Option.none Option.none).1
      = (init_subclass_resolve
          (init_subclass_resolve emptyPool Option.none (some "ab") (some "c")
            Option.none Option.none Option.none Option.none).2
          Option.none (some "a") (some "bc")
          Option.none Option.none Option.none Option.none).1 :=
  ⟨by decide, rfl⟩

/-- Witness for C3's amended theorem at a concrete input: identical
tuples share a handle and their keys agree. -/
theorem c3_witness :
    ((init_subclass_resolve emptyPool Option.none (some "s") (some "n")
        Option.none Option.none Option.none Option.none).1
      = (init_subclass_resolve
          (init_subclass_resolve emptyPool Option.none (some "s") (some "n")
            Option.none Option.none Option.none Option.none).2
          Option.none (some "s") (some "n")
          Option.none Option.none Option.none Option.none).1)
    ↔ cache_key "s" "n" Option.none Option.none Option.none Option.none
      = cache_key "s" "n" Option.none Option.none Option.none Option.none :=
  c3_sharing_iff_cache_key_eq emptyPool
    ⟨fun _ _ hh => Option.noConfusion hh, fun _ _ _ hh _ => Option.noConfusion hh⟩
    "s" "n" "s" "n" Option.none Option.none Option.none Option.none
    Option.none Option.none Option.none Option.none
    (by decide) (by decide) (by decide) (by decide)

/-! ## C9 -/

/-- C9 counterexample: the interleaving in which both callers pass the
membership check before either publishes makes the client factory run
twice, and the two callers finish holding distinct handles. -/
theorem c9_counterexample :
    (race_run [true, false, true, false] (race_init 0)).factoryCalls = 2 ∧
    (race_run [true, false, true, false] (race_init 0)).a = RCaller.done 0 ∧
    (race_run [true, false, true, false] (race_init 0)).b = RCaller.done 1 := by
  decide

/-- C9 (amended): when the two resolutions do not overlap — the first
caller completes its check-construct-publish before the second starts —
the factory runs exactly once and both callers obtain the same handle;
the unsynchronized dict check in the source guarantees nothing stronger
under interleaving. -/
theorem c9_sequential_exactly_once (n : Nat) :
    race_run [true, true, false, false] (race_init n)
      = ⟨some n, n + 1, 1, RCaller.done n, RCaller.done n⟩ := rfl

end EasyuseNacos
